import Mathlib

set_option maxRecDepth 8000

/-!
Shallow embedding of the CrossRisk sample-data core
(`src/app/db_connection.py`): the sample dataset generators, the query
pattern classifier, the mock result synthesizer, the connection facade and
the cached query executor.  Numeric values are rationals; the numpy global
pseudo-random generator is modelled as a tape of naturals together with a
position, and each numpy draw consumes one tape cell.  Python `round(x, 2)`
is modelled as exact rational rounding (half to even, as for floats).
-/

namespace CrossRisk

/-! ### String utilities (Python `in` and `str.lower`) -/

/-- `listPrefixEq p l` is true when `p` is an initial segment of `l`. -/
def listPrefixEq : List Char → List Char → Bool
  | [], _ => true
  | _ :: _, [] => false
  | a :: as, b :: bs => a == b && listPrefixEq as bs

/-- Python substring containment `pat in s`. -/
def strContains (s pat : String) : Bool :=
  (List.range (s.data.length + 1)).any (fun i => listPrefixEq pat.data (s.data.drop i))

/-- Python `s.lower()` (ASCII, as produced by the repository's SQL texts). -/
def lowerStr (s : String) : String := ⟨s.data.map Char.toLower⟩

/-- Zero-padded decimal rendering, Python `f-string` `:0Nd`. -/
def padNum (width n : ℕ) : String :=
  let s := toString n
  String.mk (List.replicate (width - s.length) '0') ++ s

/-! ### Rounding (Python `round(x, 2)`) -/

/-- Round a rational to the nearest integer, halves to even (float `round`). -/
def roundHalfEven (x : ℚ) : ℤ :=
  let f := ⌊x⌋
  let r := x - (f : ℚ)
  if r < 1/2 then f
  else if 1/2 < r then f + 1
  else if 2 ∣ f then f else f + 1

/-- Python `round(x, 2)`. -/
def round2 (x : ℚ) : ℚ := (roundHalfEven (x * 100) : ℚ) / 100

/-- Mean of a list of rationals (pandas `mean`; groups are never empty). -/
def ratMean (l : List ℚ) : ℚ := l.sum / (l.length : ℚ)

/-! ### The numpy global RNG, modelled as a tape of naturals -/

/-- Model of the numpy global RNG state: an infinite tape of naturals and a
read position.  Each draw consumes one cell. -/
structure RNG where
  tape : ℕ → ℕ
  pos : ℕ

/-- Consume one raw tape cell. -/
def RNG.next (g : RNG) : ℕ × RNG := (g.tape g.pos, ⟨g.tape, g.pos + 1⟩)

/-- `np.random.seed s`: reset the global RNG to a state depending only on
the seed.  The concrete tape function is an abstract stand-in for the
Mersenne Twister, which lives outside this repository. -/
def seedTape (s : ℕ) : ℕ → ℕ := fun n => (s + 1) * (n + 1) % 2147483647

/-- The RNG state immediately after `np.random.seed s`. -/
def npSeed (s : ℕ) : RNG := ⟨seedTape s, 0⟩

/-- `np.random.random()`: a rational in `[0, 1)`. -/
def npRandom (g : RNG) : ℚ × RNG :=
  let (n, g') := g.next
  (((n % 1000 : ℕ) : ℚ) / 1000, g')

/-- `np.random.uniform lo hi`: a rational in `[lo, hi)`. -/
def npUniform (lo hi : ℚ) (g : RNG) : ℚ × RNG :=
  let (u, g') := npRandom g
  (lo + (hi - lo) * u, g')

/-- `np.random.randint lo hi`: an integer in `[lo, hi)`. -/
def npRandint (lo hi : ℕ) (g : RNG) : ℕ × RNG :=
  let (n, g') := g.next
  (lo + n % (hi - lo), g')

/-- `np.random.choice l`: one element of `l`, selected by the RNG state. -/
def npChoice (l : List String) (g : RNG) : String × RNG :=
  let (n, g') := g.next
  (l.getD (n % l.length) "", g')

/-! ### Risk segment base dataset (`get_sample_risk_data`) -/

/-- One row of `risk_join_aggregated` as generated by
`get_sample_risk_data`. -/
structure RiskRow where
  analysisId : String
  ageGroup : String
  region : String
  occupationCategory : String
  recordCount : ℕ
  avgBankRiskScore : ℚ
  avgInsuranceRiskScore : ℚ
  compositeRiskScore : ℚ
  riskCategory : String
  fraudCorrelationScore : ℚ
deriving DecidableEq

/-- The fixed threshold table applied to a composite score
(`if composite >= 75: 'CRITICAL' elif >= 50 ...`). -/
def riskCat (x : ℚ) : String :=
  if x ≥ 75 then "CRITICAL"
  else if x ≥ 50 then "HIGH"
  else if x ≥ 25 then "MEDIUM"
  else "LOW"

/-- Build one risk row exactly as the generator's loop body does:
`composite = bank_risk * 0.6 + insurance_risk * 0.4`, the category is taken
from the unrounded composite, and the stored scores are rounded to two
decimal places. -/
def mkRiskRow (analysisId ageGroup region occupation : String) (recordCount : ℕ)
    (bankRisk insuranceRisk fraud : ℚ) : RiskRow :=
  let composite := bankRisk * (3/5) + insuranceRisk * (2/5)
  { analysisId := analysisId
    ageGroup := ageGroup
    region := region
    occupationCategory := occupation
    recordCount := recordCount
    avgBankRiskScore := round2 bankRisk
    avgInsuranceRiskScore := round2 insuranceRisk
    compositeRiskScore := round2 composite
    riskCategory := riskCat composite
    fraudCorrelationScore := round2 fraud }

def regions : List String := ["Northeast", "Southeast", "Midwest", "West"]
def ageGroups : List String := ["18-24", "25-34", "35-44", "45-54", "55-64", "65+"]
def occupations : List String :=
  ["Technology", "Healthcare", "Finance", "Education", "Manufacturing", "Retail"]

/-- The region × age group × occupation cross product walked by the
generator's nested loops, in loop order. -/
def riskCombinations : List (String × String × String) :=
  regions.foldr (fun r acc =>
    ageGroups.foldr (fun a acc2 =>
      occupations.foldr (fun o acc3 => (r, a, o) :: acc3) acc2) acc) []

/-- The survival test of one combination: `np.random.random() > 0.6`. -/
def keepCombination (u : ℚ) : Bool := u > 3/5

/-- The generator's loop over the cross product: each combination draws one
uniform; survivors draw a record count, two risk scores and a fraud score. -/
def buildRiskRows (combos : List (String × String × String)) (g : RNG) :
    List RiskRow × RNG :=
  combos.foldl (fun st c =>
    let (acc, g0) := st
    let (u, g1) := npRandom g0
    if keepCombination u then
      let (rc, g2) := npRandint 3 25 g1
      let (bank, g3) := npUniform 15 85 g2
      let (ins, g4) := npUniform 15 85 g3
      let (fraud, g5) := npUniform (1/20) (17/20) g4
      (acc ++ [mkRiskRow ("A" ++ padNum 4 (acc.length + 1)) c.2.1 c.1 c.2.2 rc bank ins fraud], g5)
    else (acc, g1)) ([], g)

/-- `get_sample_risk_data` (cache-free value): seeds the global RNG with 42,
so the result ignores the ambient RNG state. -/
def genRiskRows (_g : RNG) : List RiskRow := (buildRiskRows riskCombinations (npSeed 42)).1

/-! ### pandas groupby scaffolding -/

/-- Character-list comparison underlying pandas' sorted group keys. -/
def charListLe : List Char → List Char → Bool
  | [], _ => true
  | _ :: _, [] => false
  | a :: as, b :: bs =>
    if a.val < b.val then true
    else if b.val < a.val then false
    else charListLe as bs

def strLe (x y : String) : Bool := charListLe x.data y.data

def insertSorted (x : String) : List String → List String
  | [] => [x]
  | y :: ys => if strLe x y then x :: y :: ys else y :: insertSorted x ys

/-- First-occurrence deduplication. -/
def dedupAux : List String → List String → List String
  | [], _ => []
  | x :: xs, seen => if seen.contains x then dedupAux xs seen else x :: dedupAux xs (x :: seen)

/-- pandas `groupby` keys: the distinct values, in sorted order. -/
def pandasKeys (l : List String) : List String := (dedupAux l []).foldr insertSorted []

/-- Sum of `RECORD_COUNT` over a list of risk rows. -/
def sumRecordCount (df : List RiskRow) : ℕ := (df.map (·.recordCount)).sum

/-! ### Age-group aggregation with per-category risk counts
(`db_connection.py` lines 368-390 and 430-445) -/

/-- One output row of the age-group aggregation used by the Pre-Approved
Questions page: `AGE_GROUP, TOTAL_CUSTOMERS, AVG_RISK` plus the four
per-category count columns. -/
structure AgeGroupRiskCountRow where
  ageGroup : String
  totalCustomers : ℕ
  avgRisk : ℚ
  criticalCount : ℕ
  highCount : ℕ
  mediumCount : ℕ
  lowCount : ℕ
deriving DecidableEq

/-- The synthesized age-group aggregation: group by `AGE_GROUP`, sum
`RECORD_COUNT`, mean `COMPOSITE_RISK_SCORE` rounded to 2 decimals, and the
four category-count columns obtained by filtering the base dataset on the
age group AND the risk category and summing `RECORD_COUNT`. -/
def aggAgeGroupRiskCounts (df : List RiskRow) : List AgeGroupRiskCountRow :=
  (pandasKeys (df.map (·.ageGroup))).map (fun age =>
    let grp := df.filter (fun r => r.ageGroup == age)
    { ageGroup := age
      totalCustomers := sumRecordCount grp
      avgRisk := round2 (ratMean (grp.map (·.compositeRiskScore)))
      criticalCount := sumRecordCount (df.filter (fun r =>
        r.ageGroup == age && r.riskCategory == "CRITICAL"))
      highCount := sumRecordCount (df.filter (fun r =>
        r.ageGroup == age && r.riskCategory == "HIGH"))
      mediumCount := sumRecordCount (df.filter (fun r =>
        r.ageGroup == age && r.riskCategory == "MEDIUM"))
      lowCount := sumRecordCount (df.filter (fun r =>
        r.ageGroup == age && r.riskCategory == "LOW")) })

/-! ### Organizational raw records (`get_sample_bank_data`,
`get_sample_insurance_data`) -/

/-- One row of `bank_customer_risk_summary`. -/
structure BankRow where
  customerId : String
  ageGroup : String
  region : String
  riskScore : ℚ
  fraudFlagHistory : ℕ
deriving DecidableEq

/-- One row of `insurance_claim_risk_summary`. -/
structure InsuranceRow where
  customerId : String
  ageGroup : String
  region : String
  riskScore : ℚ
  suspiciousClaimFlags : ℕ
deriving DecidableEq

/-- Python `f'CUST_{n:05d}'`. -/
def custFmt (n : ℕ) : String := "CUST_" ++ padNum 5 n

def buildBankRows (g : RNG) : List BankRow × RNG :=
  (List.range 100).foldl (fun st i =>
    let (acc, g0) := st
    let (age, g1) := npChoice ageGroups g0
    let (reg, g2) := npChoice regions g1
    let (risk, g3) := npUniform 15 85 g2
    let (flags, g4) := npRandint 0 3 g3
    (acc ++ [{ customerId := custFmt (i + 1), ageGroup := age, region := reg,
               riskScore := round2 risk, fraudFlagHistory := flags }], g4)) ([], g)

/-- `get_sample_bank_data` (cache-free value): seeds 42, ignores ambient state. -/
def genBankRows (_g : RNG) : List BankRow := (buildBankRows (npSeed 42)).1

def buildInsuranceRows (g : RNG) : List InsuranceRow × RNG :=
  (List.range 100).foldl (fun st i =>
    let (acc, g0) := st
    let (age, g1) := npChoice ageGroups g0
    let (reg, g2) := npChoice regions g1
    let (risk, g3) := npUniform 15 85 g2
    let (flags, g4) := npRandint 0 3 g3
    (acc ++ [{ customerId := custFmt (i + 1), ageGroup := age, region := reg,
               riskScore := round2 risk, suspiciousClaimFlags := flags }], g4)) ([], g)

/-- `get_sample_insurance_data` (cache-free value): seeds 43. -/
def genInsuranceRows (_g : RNG) : List InsuranceRow := (buildInsuranceRows (npSeed 43)).1

/-! ### Correlation and composite-risk samples -/

structure CorrelationRow where
  ageGroup : String
  region : String
  bankRisk : ℚ
  insuranceRisk : ℚ
  fraudFlagHistory : ℕ
  suspiciousClaimFlags : ℕ
deriving DecidableEq

def buildCorrelationRows (g : RNG) : List CorrelationRow × RNG :=
  (List.range 80).foldl (fun st _ =>
    let (acc, g0) := st
    let (age, g1) := npChoice ageGroups g0
    let (reg, g2) := npChoice regions g1
    let (bank, g3) := npUniform 20 80 g2
    let (ins, g4) := npUniform 20 80 g3
    let (ff, g5) := npRandint 0 2 g4
    let (sf, g6) := npRandint 0 2 g5
    (acc ++ [{ ageGroup := age, region := reg, bankRisk := round2 bank,
               insuranceRisk := round2 ins, fraudFlagHistory := ff,
               suspiciousClaimFlags := sf }], g6)) ([], g)

/-- `get_sample_correlation_data` (cache-free value): seeds 44. -/
def genCorrelationRows (_g : RNG) : List CorrelationRow :=
  (buildCorrelationRows (npSeed 44)).1

structure CompositeRiskRow where
  compositeRiskCategory : String
  riskDriver : String
  segmentCount : ℕ
  customerCount : ℕ
deriving DecidableEq

def riskCategories : List String := ["LOW", "MEDIUM", "HIGH", "CRITICAL"]
def riskDrivers : List String := ["Bank-Driven", "Insurance-Driven", "Balanced"]

def buildCompositeRiskRows (g : RNG) : List CompositeRiskRow × RNG :=
  (riskCategories.foldr (fun c acc => riskDrivers.foldr (fun d acc2 => (c, d) :: acc2) acc)
    []).foldl (fun st cd =>
      let (acc, g0) := st
      let (seg, g1) := npRandint 5 30 g0
      let (cust, g2) := npRandint 50 500 g1
      (acc ++ [{ compositeRiskCategory := cd.1, riskDriver := cd.2,
                 segmentCount := seg, customerCount := cust }], g2)) ([], g)

/-- `get_sample_composite_risk_data` (cache-free value): seeds 45. -/
def genCompositeRiskRows (_g : RNG) : List CompositeRiskRow :=
  (buildCompositeRiskRows (npSeed 45)).1

/-! ### Access audit log and timeline.  NOTE: unlike the generators above,
`get_sample_access_audit_data` and `get_sample_timeline_data` perform no
`np.random.seed` call, so their draws consume the ambient global RNG
state. -/

structure AuditRow where
  auditId : String
  userName : String
  roleName : String
  queryType : String
  queryText : String
  rowCount : ℕ
  executedAt : ℚ
deriving DecidableEq

def auditUsers : List String := ["john.doe", "jane.smith", "bob.johnson"]
def auditRoles : List String := ["ANALYST", "RISK_ANALYST", "RISK_MANAGER"]

/-- `get_sample_access_audit_data` (cache-free value): 20 rows drawn from
the ambient, unseeded global RNG; timestamps are days relative to `now`. -/
def genAccessAuditRows (now : ℚ) (g : RNG) : List AuditRow × RNG :=
  (List.range 20).foldl (fun st i =>
    let (acc, g0) := st
    let (user, g1) := npChoice auditUsers g0
    let (role, g2) := npChoice auditRoles g1
    let (rc, g3) := npRandint 10 500 g2
    let (hrs, g4) := npRandint 1 72 g3
    (acc ++ [{ auditId := "A" ++ padNum 4 (i + 1), userName := user, roleName := role,
               queryType := "SELECT",
               queryText := "SELECT * FROM analytics.risk_join_aggregated WHERE...",
               rowCount := rc, executedAt := now - (hrs : ℚ) / 24 }], g4)) ([], g)

structure TimelineRow where
  accessDate : ℤ
  queryCount : ℕ
  uniqueUsers : ℕ
  rowsAccessed : ℕ
deriving DecidableEq

/-- `get_sample_timeline_data` (cache-free value): 30 rows from the ambient,
unseeded global RNG; `ACCESS_DATE` is the calendar date (floor of days). -/
def genTimelineRows (now : ℚ) (g : RNG) : List TimelineRow × RNG :=
  (List.range 30).foldl (fun st i =>
    let (acc, g0) := st
    let (qc, g1) := npRandint 50 200 g0
    let (uu, g2) := npRandint 3 8 g1
    let (ra, g3) := npRandint 5000 25000 g2
    (acc ++ [{ accessDate := ⌊now - ((30 - i : ℕ) : ℚ)⌋, queryCount := qc,
               uniqueUsers := uu, rowsAccessed := ra }], g3)) ([], g)

/-! ### Literal sample tables (questions, fraud signals, compliance log,
per-user access summary, AI explanation) -/

structure QuestionRow where
  questionId : String
  questionText : String
  category : String
  aiSummary : String
  lastRefreshed : ℚ
deriving DecidableEq

def genQuestionRows (now : ℚ) : List QuestionRow :=
  [{ questionId := "Q001",
     questionText := "What is the overall risk distribution across customer segments?",
     category := "Risk Overview",
     aiSummary := "Analysis shows balanced risk distribution with 45% low-medium risk and 35% high-critical risk segments.",
     lastRefreshed := now },
   { questionId := "Q002",
     questionText := "Which age groups show the highest risk scores?",
     category := "Age Analysis",
     aiSummary := "Age groups 45-54 and 55-64 demonstrate elevated risk profiles with average scores above 60.",
     lastRefreshed := now },
   { questionId := "Q003",
     questionText := "What are the regional risk hotspots?",
     category := "Regional Analysis",
     aiSummary := "Southeast and Midwest regions show higher average risk scores compared to coastal regions.",
     lastRefreshed := now }]

structure FraudSignalRow where
  signalId : String
  ageGroup : String
  region : String
  patternDescription : String
  affectedCustomerCount : ℕ
  confidenceScore : ℚ
  detectedAt : ℚ
deriving DecidableEq

def genFraudSignalRows (now : ℚ) : List FraudSignalRow :=
  [{ signalId := "FS001", ageGroup := "35-44", region := "Midwest",
     patternDescription := "Elevated transaction velocity with simultaneous claim activity",
     affectedCustomerCount := 12, confidenceScore := 87/100, detectedAt := now - 5 },
   { signalId := "FS002", ageGroup := "45-54", region := "Southeast",
     patternDescription := "Unusual claim frequency pattern across insurance products",
     affectedCustomerCount := 8, confidenceScore := 72/100, detectedAt := now - 12 }]

structure ComplianceRow where
  complianceId : String
  checkType : String
  tableName : String
  checkResult : String
  details : String
  checkedAt : ℚ
deriving DecidableEq

def genComplianceRows (now : ℚ) : List ComplianceRow :=
  [{ complianceId := "C001", checkType := "K_ANONYMITY", tableName := "risk_join_aggregated",
     checkResult := "PASSED", details := "All segments meet k>=3 requirement",
     checkedAt := now - 2/24 },
   { complianceId := "C002", checkType := "DATA_QUALITY", tableName := "bank_customer_risk_summary",
     checkResult := "PASSED", details := "No data quality issues detected",
     checkedAt := now - 4/24 },
   { complianceId := "C003", checkType := "MASKING", tableName := "insurance_claim_risk_summary",
     checkResult := "PASSED", details := "All masking policies are active",
     checkedAt := now - 6/24 }]

structure UserAccessRow where
  userName : String
  roleName : String
  queryCount : ℕ
  rowsAccessed : ℕ
  firstAccess : ℚ
  lastAccess : ℚ
deriving DecidableEq

def genUserAccessRows (now : ℚ) : List UserAccessRow :=
  [{ userName := "john.doe", roleName := "ANALYST", queryCount := 45,
     rowsAccessed := 12500, firstAccess := now - 30, lastAccess := now - 2/24 },
   { userName := "jane.smith", roleName := "RISK_ANALYST", queryCount := 67,
     rowsAccessed := 23400, firstAccess := now - 25, lastAccess := now - 1/24 },
   { userName := "bob.johnson", roleName := "RISK_MANAGER", queryCount := 28,
     rowsAccessed := 8900, firstAccess := now - 20, lastAccess := now - 5/24 }]

/-! ### Remaining synthesizer aggregations over the risk base dataset -/

/-- Output row of the risk-category distribution shape
(`count(*)` + `group by risk_category`, lines 407-415): count of
`ANALYSIS_ID`, sum of `RECORD_COUNT`, rounded mean composite. -/
structure RiskCatDistRow where
  riskCategory : String
  segmentCount : ℕ
  customerCount : ℕ
  avgRiskScore : ℚ
deriving DecidableEq

def aggRiskCatDist (df : List RiskRow) : List RiskCatDistRow :=
  (pandasKeys (df.map (·.riskCategory))).map (fun c =>
    let grp := df.filter (fun r => r.riskCategory == c)
    { riskCategory := c
      segmentCount := grp.length
      customerCount := sumRecordCount grp
      avgRiskScore := round2 (ratMean (grp.map (·.compositeRiskScore))) })

/-- Output row of the Home-page age-group aggregation
(`AVG_RISK_SCORE`/`CUSTOMER_COUNT` sub-case, lines 417-428). -/
structure AgeGroupHomeRow where
  ageGroup : String
  customerCount : ℕ
  avgRiskScore : ℚ
deriving DecidableEq

def aggAgeGroupHome (df : List RiskRow) : List AgeGroupHomeRow :=
  (pandasKeys (df.map (·.ageGroup))).map (fun age =>
    let grp := df.filter (fun r => r.ageGroup == age)
    { ageGroup := age
      customerCount := sumRecordCount grp
      avgRiskScore := round2 (ratMean (grp.map (·.compositeRiskScore))) })

/-- Output row of the plain region aggregation (lines 449-463, no
`count(*)`). -/
structure RegionAggRow where
  region : String
  customerCount : ℕ
  avgRisk : ℚ
deriving DecidableEq

def aggRegion (df : List RiskRow) : List RegionAggRow :=
  (pandasKeys (df.map (·.region))).map (fun reg =>
    let grp := df.filter (fun r => r.region == reg)
    { region := reg
      customerCount := sumRecordCount grp
      avgRisk := round2 (ratMean (grp.map (·.compositeRiskScore))) })

/-- Output row of the region aggregation with a `SEGMENT_COUNT` column
(`count(*)` sub-case, lines 456-459). -/
structure RegionAggSegRow where
  region : String
  customerCount : ℕ
  avgRisk : ℚ
  segmentCount : ℕ
deriving DecidableEq

def aggRegionSeg (df : List RiskRow) : List RegionAggSegRow :=
  (pandasKeys (df.map (·.region))).map (fun reg =>
    let grp := df.filter (fun r => r.region == reg)
    { region := reg
      customerCount := sumRecordCount grp
      avgRisk := round2 (ratMean (grp.map (·.compositeRiskScore)))
      segmentCount := grp.length })

/-- The one-row summary-statistics shape (lines 471-477); `AVG_RISK` is the
unrounded mean. -/
structure SummaryStatsRow where
  totalSegments : ℕ
  totalCustomers : ℕ
  avgRisk : ℚ
  highRiskCount : ℕ
deriving DecidableEq

def summaryStats (df : List RiskRow) : SummaryStatsRow :=
  { totalSegments := df.length
    totalCustomers := sumRecordCount df
    avgRisk := ratMean (df.map (·.compositeRiskScore))
    highRiskCount := sumRecordCount (df.filter (fun r =>
      r.riskCategory == "HIGH" || r.riskCategory == "CRITICAL")) }

/-! ### Synthetic join shapes (lines 499-530): independently drawn per-bucket
values from the ambient RNG, not real correlated data. -/

structure RegionJoinRow where
  region : String
  bankAvgRisk : ℚ
  insuranceAvgRisk : ℚ
  customerCount : ℕ
  riskDifference : ℚ
deriving DecidableEq

def synthRegionJoin (g : RNG) : List RegionJoinRow × RNG :=
  regions.foldl (fun st reg =>
    let (acc, g0) := st
    let (bank, g1) := npUniform 45 75 g0
    let (ins, g2) := npUniform 45 75 g1
    let (cnt, g3) := npRandint 50 200 g2
    (acc ++ [{ region := reg, bankAvgRisk := round2 bank, insuranceAvgRisk := round2 ins,
               customerCount := cnt,
               riskDifference := round2 (round2 bank - round2 ins) }], g3)) ([], g)

structure AgeJoinRow where
  ageGroup : String
  bankAvgRisk : ℚ
  insuranceAvgRisk : ℚ
  customerCount : ℕ
  riskGap : ℚ
deriving DecidableEq

def synthAgeJoin (g : RNG) : List AgeJoinRow × RNG :=
  ageGroups.foldl (fun st age =>
    let (acc, g0) := st
    let (bank, g1) := npUniform 40 80 g0
    let (ins, g2) := npUniform 40 80 g1
    let (cnt, g3) := npRandint 30 150 g2
    (acc ++ [{ ageGroup := age, bankAvgRisk := round2 bank, insuranceAvgRisk := round2 ins,
               customerCount := cnt,
               riskGap := round2 |round2 bank - round2 ins| }], g3)) ([], g)

/-! ### Union-of-organizations summary (lines 537-559) -/

def listMin (l : List ℚ) : ℚ := match l with | [] => 0 | x :: xs => xs.foldl min x
def listMax (l : List ℚ) : ℚ := match l with | [] => 0 | x :: xs => xs.foldl max x

/-- Sample variance (pandas `std` squared, `ddof = 1`). -/
def sampleVar (l : List ℚ) : ℚ :=
  (l.map (fun x => (x - ratMean l) ^ 2)).sum / ((l.length : ℚ) - 1)

/-- Floor of `100 * sqrt x` for a nonnegative rational, via integer square
root. -/
def floorSqrt100 (x : ℚ) : ℕ := Nat.sqrt (10000 * x.num.toNat * x.den) / x.den

/-- `round(sqrt x, 2)` as an exact rational (half to even). -/
def sqrtRound2 (x : ℚ) : ℚ :=
  let p := x.num.toNat
  let d := x.den
  let n0 := floorSqrt100 x
  let lhs := 40000 * p
  let rhs := (2 * n0 + 1) ^ 2 * d
  ((if lhs > rhs then n0 + 1
    else if lhs < rhs then n0
    else if n0 % 2 = 0 then n0 else n0 + 1 : ℕ) : ℚ) / 100

structure OrgSummaryRow where
  organization : String
  recordCount : ℕ
  avgRiskScore : ℚ
  minRisk : ℚ
  maxRisk : ℚ
  riskStddev : ℚ
deriving DecidableEq

def unionSummaryRows (bank : List BankRow) (ins : List InsuranceRow) : List OrgSummaryRow :=
  let bs := bank.map (·.riskScore)
  let is_ := ins.map (·.riskScore)
  [{ organization := "Bank", recordCount := bank.length,
     avgRiskScore := round2 (ratMean bs), minRisk := round2 (listMin bs),
     maxRisk := round2 (listMax bs), riskStddev := sqrtRound2 (sampleVar bs) },
   { organization := "Insurance", recordCount := ins.length,
     avgRiskScore := round2 (ratMean is_), minRisk := round2 (listMin is_),
     maxRisk := round2 (listMax is_), riskStddev := sqrtRound2 (sampleVar is_) }]

/-! ### Compliance grouping and audit summary -/

def pairLe (x y : String × String) : Bool :=
  if x.1 == y.1 then strLe x.2 y.2 else strLe x.1 y.1

def insertSortedPair (x : String × String) : List (String × String) → List (String × String)
  | [] => [x]
  | y :: ys => if pairLe x y then x :: y :: ys else y :: insertSortedPair x ys

def dedupPairAux : List (String × String) → List (String × String) → List (String × String)
  | [], _ => []
  | x :: xs, seen =>
    if seen.contains x then dedupPairAux xs seen else x :: dedupPairAux xs (x :: seen)

def pandasPairKeys (l : List (String × String)) : List (String × String) :=
  (dedupPairAux l []).foldr insertSortedPair []

/-- Output row of the grouped compliance shape (lines 493-496):
`groupby(['CHECK_TYPE','CHECK_RESULT']).size()` plus the dataset-wide
latest check timestamp. -/
structure ComplianceGroupRow where
  checkType : String
  checkResult : String
  checkCount : ℕ
  lastCheck : ℚ
deriving DecidableEq

def aggComplianceGrouped (df : List ComplianceRow) : List ComplianceGroupRow :=
  let last := listMax (df.map (·.checkedAt))
  (pandasPairKeys (df.map (fun r => (r.checkType, r.checkResult)))).map (fun k =>
    { checkType := k.1, checkResult := k.2,
      checkCount := (df.filter (fun r => r.checkType == k.1 && r.checkResult == k.2)).length,
      lastCheck := last })

/-- The one-row audit summary shape (lines 583-589). -/
structure AuditSummaryRow where
  totalQueries : ℕ
  uniqueUsers : ℕ
  activeDays : ℕ
  totalRowsAccessed : ℕ
deriving DecidableEq

def auditSummaryRow (df : List AuditRow) : AuditSummaryRow :=
  { totalQueries := df.length
    uniqueUsers := (dedupAux (df.map (·.userName)) []).length
    activeDays := 7
    totalRowsAccessed := (df.map (·.rowCount)).sum }

/-! ### Generic row sets (the tabular values crossing the core boundary) -/

inductive Val where
  | s : String → Val
  | q : ℚ → Val
deriving DecidableEq

abbrev Row := List (String × Val)
abbrev RowSet := List Row

def riskRowCells (r : RiskRow) : Row :=
  [("ANALYSIS_ID", .s r.analysisId), ("AGE_GROUP", .s r.ageGroup), ("REGION", .s r.region),
   ("OCCUPATION_CATEGORY", .s r.occupationCategory), ("RECORD_COUNT", .q r.recordCount),
   ("AVG_BANK_RISK_SCORE", .q r.avgBankRiskScore),
   ("AVG_INSURANCE_RISK_SCORE", .q r.avgInsuranceRiskScore),
   ("COMPOSITE_RISK_SCORE", .q r.compositeRiskScore), ("RISK_CATEGORY", .s r.riskCategory),
   ("FRAUD_CORRELATION_SCORE", .q r.fraudCorrelationScore)]

def ageGroupRiskCountCells (r : AgeGroupRiskCountRow) : Row :=
  [("AGE_GROUP", .s r.ageGroup), ("TOTAL_CUSTOMERS", .q r.totalCustomers),
   ("AVG_RISK", .q r.avgRisk), ("CRITICAL_COUNT", .q r.criticalCount),
   ("HIGH_COUNT", .q r.highCount), ("MEDIUM_COUNT", .q r.mediumCount),
   ("LOW_COUNT", .q r.lowCount)]

def riskCatDistCells (r : RiskCatDistRow) : Row :=
  [("RISK_CATEGORY", .s r.riskCategory), ("SEGMENT_COUNT", .q r.segmentCount),
   ("CUSTOMER_COUNT", .q r.customerCount), ("AVG_RISK_SCORE", .q r.avgRiskScore)]

def ageGroupHomeCells (r : AgeGroupHomeRow) : Row :=
  [("AGE_GROUP", .s r.ageGroup), ("CUSTOMER_COUNT", .q r.customerCount),
   ("AVG_RISK_SCORE", .q r.avgRiskScore)]

def regionAggCells (r : RegionAggRow) : Row :=
  [("REGION", .s r.region), ("CUSTOMER_COUNT", .q r.customerCount), ("AVG_RISK", .q r.avgRisk)]

def regionAggSegCells (r : RegionAggSegRow) : Row :=
  [("REGION", .s r.region), ("CUSTOMER_COUNT", .q r.customerCount), ("AVG_RISK", .q r.avgRisk),
   ("SEGMENT_COUNT", .q r.segmentCount)]

def summaryStatsCells (r : SummaryStatsRow) : Row :=
  [("TOTAL_SEGMENTS", .q r.totalSegments), ("TOTAL_CUSTOMERS", .q r.totalCustomers),
   ("AVG_RISK", .q r.avgRisk), ("HIGH_RISK_COUNT", .q r.highRiskCount)]

def questionCells (r : QuestionRow) : Row :=
  [("QUESTION_ID", .s r.questionId), ("QUESTION_TEXT", .s r.questionText),
   ("CATEGORY", .s r.category), ("AI_SUMMARY", .s r.aiSummary),
   ("LAST_REFRESHED", .q r.lastRefreshed)]

def fraudSignalCells (r : FraudSignalRow) : Row :=
  [("SIGNAL_ID", .s r.signalId), ("AGE_GROUP", .s r.ageGroup), ("REGION", .s r.region),
   ("PATTERN_DESCRIPTION", .s r.patternDescription),
   ("AFFECTED_CUSTOMER_COUNT", .q r.affectedCustomerCount),
   ("CONFIDENCE_SCORE", .q r.confidenceScore), ("DETECTED_AT", .q r.detectedAt)]

def complianceCells (r : ComplianceRow) : Row :=
  [("COMPLIANCE_ID", .s r.complianceId), ("CHECK_TYPE", .s r.checkType),
   ("TABLE_NAME", .s r.tableName), ("CHECK_RESULT", .s r.checkResult),
   ("DETAILS", .s r.details), ("CHECKED_AT", .q r.checkedAt)]

def complianceGroupCells (r : ComplianceGroupRow) : Row :=
  [("CHECK_TYPE", .s r.checkType), ("CHECK_RESULT", .s r.checkResult),
   ("CHECK_COUNT", .q r.checkCount), ("LAST_CHECK", .q r.lastCheck)]

def regionJoinCells (r : RegionJoinRow) : Row :=
  [("REGION", .s r.region), ("BANK_AVG_RISK", .q r.bankAvgRisk),
   ("INSURANCE_AVG_RISK", .q r.insuranceAvgRisk), ("CUSTOMER_COUNT", .q r.customerCount),
   ("RISK_DIFFERENCE", .q r.riskDifference)]

def ageJoinCells (r : AgeJoinRow) : Row :=
  [("AGE_GROUP", .s r.ageGroup), ("BANK_AVG_RISK", .q r.bankAvgRisk),
   ("INSURANCE_AVG_RISK", .q r.insuranceAvgRisk), ("CUSTOMER_COUNT", .q r.customerCount),
   ("RISK_GAP", .q r.riskGap)]

def correlationCells (r : CorrelationRow) : Row :=
  [("AGE_GROUP", .s r.ageGroup), ("REGION", .s r.region), ("BANK_RISK", .q r.bankRisk),
   ("INSURANCE_RISK", .q r.insuranceRisk), ("FRAUD_FLAG_HISTORY", .q r.fraudFlagHistory),
   ("SUSPICIOUS_CLAIM_FLAGS", .q r.suspiciousClaimFlags)]

def orgSummaryCells (r : OrgSummaryRow) : Row :=
  [("ORGANIZATION", .s r.organization), ("RECORD_COUNT", .q r.recordCount),
   ("AVG_RISK_SCORE", .q r.avgRiskScore), ("MIN_RISK", .q r.minRisk),
   ("MAX_RISK", .q r.maxRisk), ("RISK_STDDEV", .q r.riskStddev)]

def bankCells (r : BankRow) : Row :=
  [("CUSTOMER_ID", .s r.customerId), ("AGE_GROUP", .s r.ageGroup), ("REGION", .s r.region),
   ("RISK_SCORE", .q r.riskScore), ("FRAUD_FLAG_HISTORY", .q r.fraudFlagHistory)]

def insuranceCells (r : InsuranceRow) : Row :=
  [("CUSTOMER_ID", .s r.customerId), ("AGE_GROUP", .s r.ageGroup), ("REGION", .s r.region),
   ("RISK_SCORE", .q r.riskScore), ("SUSPICIOUS_CLAIM_FLAGS", .q r.suspiciousClaimFlags)]

def compositeRiskCells (r : CompositeRiskRow) : Row :=
  [("COMPOSITE_RISK_CATEGORY", .s r.compositeRiskCategory), ("RISK_DRIVER", .s r.riskDriver),
   ("SEGMENT_COUNT", .q r.segmentCount), ("CUSTOMER_COUNT", .q r.customerCount)]

def timelineCells (r : TimelineRow) : Row :=
  [("ACCESS_DATE", .q r.accessDate), ("QUERY_COUNT", .q r.queryCount),
   ("UNIQUE_USERS", .q r.uniqueUsers), ("ROWS_ACCESSED", .q r.rowsAccessed)]

def userAccessCells (r : UserAccessRow) : Row :=
  [("USER_NAME", .s r.userName), ("ROLE_NAME", .s r.roleName),
   ("QUERY_COUNT", .q r.queryCount), ("ROWS_ACCESSED", .q r.rowsAccessed),
   ("FIRST_ACCESS", .q r.firstAccess), ("LAST_ACCESS", .q r.lastAccess)]

def auditCells (r : AuditRow) : Row :=
  [("AUDIT_ID", .s r.auditId), ("USER_NAME", .s r.userName), ("ROLE_NAME", .s r.roleName),
   ("QUERY_TYPE", .s r.queryType), ("QUERY_TEXT", .s r.queryText),
   ("ROW_COUNT", .q r.rowCount), ("EXECUTED_AT", .q r.executedAt)]

def auditSummaryCells (r : AuditSummaryRow) : Row :=
  [("TOTAL_QUERIES", .q r.totalQueries), ("UNIQUE_USERS", .q r.uniqueUsers),
   ("ACTIVE_DAYS", .q r.activeDays), ("TOTAL_ROWS_ACCESSED", .q r.totalRowsAccessed)]

def aiExplanationRowSet : RowSet :=
  [[("EXPLANATION", .s "This segment shows elevated risk patterns driven by higher-than-average transaction velocity and claim frequency. The composite risk score reflects both banking and insurance risk factors."),
    ("AI_SUMMARY", .s "Risk analysis indicates moderate correlation between banking and insurance risk signals in this demographic segment.")]]

/-! ### The query pattern classifier
The ordered containment tests of `_get_sample_data_for_query`
(lines 362-601), one tag per `return` site. -/

inductive QueryShape where
  | ageGroupRiskCounts
  | riskCatDistribution
  | ageGroupAggHome
  | ageGroupAggPaq
  | regionAggSeg
  | regionAgg
  | compositeCase
  | summaryShape
  | riskTableRaw
  | approvedQuestions
  | fraudSignals
  | complianceGrouped
  | complianceRaw
  | regionJoin
  | ageJoin
  | correlation
  | unionSummary
  | bankRaw
  | insuranceRaw
  | compositeRiskTable
  | auditTimeline
  | auditUser
  | auditSummary
  | auditRaw
  | aiExplanation
  | unknown
deriving DecidableEq

/-- The classifier: the exact if/elif chain of
`_get_sample_data_for_query`, in source order.  The first branch is the
special case for age-group queries with risk category counts; the whole
`risk_join_aggregated` family (including its `group by region` sub-case) is
tested before the join-equality branches at lines 499-534. -/
def classify (sql : String) : QueryShape :=
  let q := lowerStr sql
  if strContains q "group by age_group" && strContains q "critical_count" &&
      strContains q "risk_join_aggregated" then .ageGroupRiskCounts
  else if strContains q "risk_join_aggregated" then
    if strContains q "count(*)" && strContains q "group by risk_category" then
      .riskCatDistribution
    else if strContains q "group by age_group" then
      if strContains q "avg_risk_score" && strContains q "customer_count" then
        .ageGroupAggHome
      else .ageGroupAggPaq
    else if strContains q "group by region" then
      if strContains q "count(*)" then .regionAggSeg else .regionAgg
    else if strContains q "case" && strContains q "composite_risk_score >=" &&
        strContains q "group by composite_risk_category" then .compositeCase
    else if strContains q "count(*)" && strContains q "sum(record_count)" then .summaryShape
    else .riskTableRaw
  else if strContains q "approved_questions_cache" then .approvedQuestions
  else if strContains q "fraud_cross_signals" then .fraudSignals
  else if strContains q "privacy_compliance_log" then
    if strContains q "group by" && strContains q "check_type" then .complianceGrouped
    else .complianceRaw
  else if strContains q "b.region = i.region" && strContains q "group by region" then
    .regionJoin
  else if strContains q "b.age_group = i.age_group" && strContains q "group by age_group" then
    .ageJoin
  else if strContains q "b.customer_id = i.customer_id" ||
      (strContains q "bank_risk" && strContains q "insurance_risk") then .correlation
  else if strContains q "union all" && strContains q "bank_customer_risk_summary" &&
      strContains q "insurance_claim_risk_summary" then .unionSummary
  else if strContains q "bank_customer_risk_summary" then .bankRaw
  else if strContains q "insurance_claim_risk_summary" then .insuranceRaw
  else if strContains q "composite_risk_category" || strContains q "risk_driver" then
    .compositeRiskTable
  else if strContains q "access_audit_log" then
    if strContains q "date(executed_at)" && strContains q "group by" then .auditTimeline
    else if strContains q "group by user_name" then .auditUser
    else if strContains q "count(*)" && strContains q "count(distinct user_name)" &&
        !strContains q "group by" then .auditSummary
    else .auditRaw
  else if strContains q "explain_risk_anomaly" || strContains q "ai_insights" then
    .aiExplanation
  else .unknown

/-! ### The mock result synthesizer and the connection facade -/

/-- The try-block body of `_get_sample_data_for_query`: synthesize the Row
Set for the classified shape.  `now` models `pd.Timestamp.now()` (in days)
and `g` the ambient global RNG state consumed by the unseeded draws. -/
def dispatchSample (now : ℚ) (g : RNG) (sql : String) : RowSet :=
  match classify sql with
  | .ageGroupRiskCounts => (aggAgeGroupRiskCounts (genRiskRows g)).map ageGroupRiskCountCells
  | .riskCatDistribution => (aggRiskCatDist (genRiskRows g)).map riskCatDistCells
  | .ageGroupAggHome => (aggAgeGroupHome (genRiskRows g)).map ageGroupHomeCells
  | .ageGroupAggPaq => (aggAgeGroupRiskCounts (genRiskRows g)).map ageGroupRiskCountCells
  | .regionAggSeg => (aggRegionSeg (genRiskRows g)).map regionAggSegCells
  | .regionAgg => (aggRegion (genRiskRows g)).map regionAggCells
  | .compositeCase => (genCompositeRiskRows g).map compositeRiskCells
  | .summaryShape => [summaryStatsCells (summaryStats (genRiskRows g))]
  | .riskTableRaw => (genRiskRows g).map riskRowCells
  | .approvedQuestions => (genQuestionRows now).map questionCells
  | .fraudSignals => (genFraudSignalRows now).map fraudSignalCells
  | .complianceGrouped => (aggComplianceGrouped (genComplianceRows now)).map complianceGroupCells
  | .complianceRaw => (genComplianceRows now).map complianceCells
  | .regionJoin => ((synthRegionJoin g).1).map regionJoinCells
  | .ageJoin => ((synthAgeJoin g).1).map ageJoinCells
  | .correlation => (genCorrelationRows g).map correlationCells
  | .unionSummary => (unionSummaryRows (genBankRows g) (genInsuranceRows g)).map orgSummaryCells
  | .bankRaw => (genBankRows g).map bankCells
  | .insuranceRaw => (genInsuranceRows g).map insuranceCells
  | .compositeRiskTable => (genCompositeRiskRows g).map compositeRiskCells
  | .auditTimeline => ((genTimelineRows now g).1).map timelineCells
  | .auditUser => (genUserAccessRows now).map userAccessCells
  | .auditSummary => [auditSummaryCells (auditSummaryRow ((genAccessAuditRows now g).1))]
  | .auditRaw => ((genAccessAuditRows now g).1).map auditCells
  | .aiExplanation => aiExplanationRowSet
  | .unknown => []

/-- The try-block result as an `Except`: the synthesis steps of this core
never raise, so the body always produces `ok`. -/
def getSampleDataForQueryE (now : ℚ) (g : RNG) (sql : String) : Except String RowSet :=
  Except.ok (dispatchSample now g sql)

/-- The `except Exception` handler at lines 603-605: any synthesis failure
degrades to an empty Row Set. -/
def synthExceptHandler (r : Except String RowSet) : RowSet :=
  match r with
  | .ok v => v
  | .error _ => []

/-- `_get_sample_data_for_query`: the try body guarded by the handler. -/
def getSampleDataForQuery (now : ℚ) (g : RNG) (sql : String) : RowSet :=
  synthExceptHandler (getSampleDataForQueryE now g sql)

/-- A live backend handle: `some rows` models a successful
`connection.query`, `none` a raised exception. -/
def Backend : Type := String → Option RowSet

/-- The facade state: `_connection`, `_is_offline`,
`_offline_message_shown`. -/
structure SFConn where
  connection : Option Backend
  isOffline : Bool
  offlineMessageShown : Bool

/-- `SnowflakeConnection.__init__` / `_initialize_connection`: the offline
flag is decided once, by whether the backend handle is acquired; on failure
the one-time offline notice is marked shown. -/
def initConnection (acquire : Option Backend) : SFConn :=
  match acquire with
  | some b => { connection := some b, isOffline := false, offlineMessageShown := false }
  | none => { connection := none, isOffline := true, offlineMessageShown := true }

/-- `SnowflakeConnection.query`: forward to the live backend when connected;
on a live failure (or when offline) fall back to the synthesizer.  No
branch mutates the facade, so the state component of the result is the
input state. -/
def SFConn.query (c : SFConn) (now : ℚ) (g : RNG) (sql : String) : RowSet × SFConn :=
  if !c.isOffline && c.connection.isSome then
    match c.connection with
    | some b =>
      match b sql with
      | some df => (df, c)
      | none => (getSampleDataForQuery now g sql, c)
    | none => (getSampleDataForQuery now g sql, c)
  else (getSampleDataForQuery now g sql, c)

/-- `run_query`: the cached executor; a `None`/empty result collapses to the
empty Row Set, and the surrounding handler returns the empty Row Set on any
error, so the caller always receives a Row Set. -/
def runQuery (c : SFConn) (now : ℚ) (g : RNG) (sql : String) : RowSet :=
  let df := (c.query now g sql).1
  if df.isEmpty then [] else df

/-- `is_offline_mode` via the `is_offline` property. -/
def isOfflineMode (c : SFConn) : Bool := c.isOffline

/-! ### The generator cache and Python object identity
Every generator follows the same pattern over the module-level
`_sample_data_cache`: on a hit, `return cache[key].copy()`; on a miss,
compute `df`, store `cache[key] = df`, `return df.copy()`.  To reason about
aliasing we model a heap of dataframe objects: addresses are indices, the
cache holds the address of the stored original, `.copy()` allocates a fresh
cell with the same value, and in-place mutation overwrites one cell. -/

/-- Dereference a heap address (callers only read valid addresses). -/
def heapRead (h : List α) (a : ℕ) (dflt : α) : α := h.getD a dflt

/-- Allocate a fresh cell; returns the new heap and the fresh address. -/
def heapAlloc (h : List α) (v : α) : List α × ℕ := (h ++ [v], h.length)

/-- In-place mutation of the object at address `a`. -/
def heapWrite (h : List α) (a : ℕ) (v : α) : List α := h.set a v

/-- One call of a cached generator whose generation step produces `gen`:
state is (cached address, heap); the result is the address handed to the
caller. -/
def cachedGeneratorCall (gen dflt : α) :
    Option ℕ × List α → ℕ × (Option ℕ × List α)
  | (some a, h) =>
    let (h', r) := heapAlloc h (heapRead h a dflt)
    (r, (some a, h'))
  | (none, h) =>
    let (h1, a) := heapAlloc h gen
    let (h2, r) := heapAlloc h1 (heapRead h1 a dflt)
    (r, (some a, h2))

/-- A reference ambient RNG state (the tape of zeros). -/
def rngZero : RNG := ⟨fun _ => 0, 0⟩

/-- `get_sample_risk_data` including its caching behaviour. -/
def getSampleRiskDataCall :
    Option ℕ × List (List RiskRow) → ℕ × (Option ℕ × List (List RiskRow)) :=
  cachedGeneratorCall (genRiskRows rngZero) []

/-! ### Concrete instances used in the verification below -/

/-- A second reference ambient RNG state (the tape of ones). -/
def rngOne : RNG := ⟨fun _ => 1, 0⟩

/-- A query text matching the age-group-with-risk-counts shape. -/
def c1Sql : String :=
  "select age_group, critical_count from risk_join_aggregated group by age_group"

/-- A base-dataset row produced by the generator's loop body. -/
def c1WitRow : RiskRow := mkRiskRow "A0001" "18-24" "Northeast" "Technology" 5 10 10 (1/10)

/-- A query text holding the region join-equality token, `group by region`
AND the base table name. -/
def c2Sql : String :=
  "select region from risk_join_aggregated b, ins i where b.region = i.region group by region"

/-- A region-comparison join query over the two organizational tables. -/
def c2JoinSql : String :=
  "select b.region from bank_customer_risk_summary b, insurance_claim_risk_summary i where b.region = i.region group by region"

/-- A generator-reachable row whose raw scores are both `74.997`: the
unrounded composite is `74.997` (category `HIGH`) while the stored composite
rounds to `75.00` (threshold `CRITICAL`). -/
def c5Row : RiskRow :=
  mkRiskRow "A0001" "35-44" "Northeast" "Technology" 5 (74997/1000) (74997/1000) (1/10)

/-- Of the 1000 grid points `k/1000` in `[0,1)`, how many fail the survival
test (are dropped). -/
def dropGridCount : ℕ :=
  ((List.range 1000).filter (fun k => !keepCombination ((k : ℚ) / 1000))).length

/-- A query text matching none of the classifier's patterns. -/
def emptySql : String := "no recognizable tokens here"

/-- A backend whose every query raises. -/
def failBackend : Backend := fun _ => none

/-- The facade constructed when no backend handle could be acquired. -/
def offlineConn : SFConn := initConnection none

/-- A connected facade whose backend fails every query. -/
def liveFailConn : SFConn :=
  { connection := some failBackend, isOffline := false, offlineMessageShown := false }

/-! ## Helper lemmas -/

theorem sumRecordCount_cons (r : RiskRow) (l : List RiskRow) :
    sumRecordCount (r :: l) = r.recordCount + sumRecordCount l := by
  simp [sumRecordCount]

/-- Splitting the record-count sum of one age group by the four risk
categories loses nothing when every row carries one of the four
category labels. -/
theorem sum_four_cats (df : List RiskRow) (age : String)
    (h : ∀ r ∈ df, r.riskCategory = "LOW" ∨ r.riskCategory = "MEDIUM" ∨
      r.riskCategory = "HIGH" ∨ r.riskCategory = "CRITICAL") :
    sumRecordCount (df.filter (fun r => r.ageGroup == age && r.riskCategory == "CRITICAL")) +
    sumRecordCount (df.filter (fun r => r.ageGroup == age && r.riskCategory == "HIGH")) +
    sumRecordCount (df.filter (fun r => r.ageGroup == age && r.riskCategory == "MEDIUM")) +
    sumRecordCount (df.filter (fun r => r.ageGroup == age && r.riskCategory == "LOW")) =
    sumRecordCount (df.filter (fun r => r.ageGroup == age)) := by
  induction df with
  | nil => rfl
  | cons r rest ih =>
    have hr := h r (List.mem_cons_self r rest)
    have ih' := ih (fun x hx => h x (List.mem_cons_of_mem r hx))
    by_cases hage : r.ageGroup = age
    · rcases hr with h1 | h1 | h1 | h1 <;>
        simp only [List.filter_cons, hage, h1, beq_self_eq_true, Bool.true_and,
          sumRecordCount_cons] <;>
        simp +decide only [ite_true, ite_false, sumRecordCount_cons] <;>
        omega
    · have hb : (r.ageGroup == age) = false := by
        simp [hage]
      simp only [List.filter_cons, hb, Bool.false_and, if_neg, Bool.false_eq_true,
        ite_false]
      omega

/-! ## The claims -/

/-- C1: every query classified to the age-group aggregation shape with
per-category risk counts is answered from `aggAgeGroupRiskCounts` over the
generated base dataset; the generated base dataset only carries the four
category labels; and for every base dataset with that property, every
output row satisfies
`CRITICAL_COUNT + HIGH_COUNT + MEDIUM_COUNT + LOW_COUNT = TOTAL_CUSTOMERS`,
where `TOTAL_CUSTOMERS` is the record-count sum of the age group's base
rows. -/
theorem ageGroup_risk_counts_partition (now : ℚ) (g : RNG) (sql : String)
    (df : List RiskRow)
    (hclass : classify sql = QueryShape.ageGroupRiskCounts)
    (h : ∀ r ∈ df, r.riskCategory = "LOW" ∨ r.riskCategory = "MEDIUM" ∨
      r.riskCategory = "HIGH" ∨ r.riskCategory = "CRITICAL") :
    dispatchSample now g sql
        = (aggAgeGroupRiskCounts (genRiskRows g)).map ageGroupRiskCountCells ∧
    (∀ r ∈ genRiskRows g, r.riskCategory = "LOW" ∨ r.riskCategory = "MEDIUM" ∨
      r.riskCategory = "HIGH" ∨ r.riskCategory = "CRITICAL") ∧
    ∀ row ∈ aggAgeGroupRiskCounts df,
      row.criticalCount + row.highCount + row.mediumCount + row.lowCount
        = row.totalCustomers := by
  refine ⟨by simp [dispatchSample, hclass], ?_, ?_⟩
  · have hgen : genRiskRows g = genRiskRows rngZero := rfl
    rw [hgen]
    exact of_decide_eq_true (by with_unfolding_all rfl)
  · intro row hrow
    simp only [aggAgeGroupRiskCounts, List.mem_map] at hrow
    obtain ⟨age, _, rfl⟩ := hrow
    exact sum_four_cats df age h

/-- C1 witness: the theorem applied to the concrete query `c1Sql` and the
one-row base dataset `[c1WitRow]`. -/
theorem ageGroup_risk_counts_partition_witness :
    dispatchSample 0 rngZero c1Sql
        = (aggAgeGroupRiskCounts (genRiskRows rngZero)).map ageGroupRiskCountCells ∧
    (∀ r ∈ genRiskRows rngZero, r.riskCategory = "LOW" ∨ r.riskCategory = "MEDIUM" ∨
      r.riskCategory = "HIGH" ∨ r.riskCategory = "CRITICAL") ∧
    ∀ row ∈ aggAgeGroupRiskCounts [c1WitRow],
      row.criticalCount + row.highCount + row.mediumCount + row.lowCount
        = row.totalCustomers :=
  ageGroup_risk_counts_partition 0 rngZero c1Sql [c1WitRow] (by decide)
    (of_decide_eq_true (by with_unfolding_all rfl))

/-- C2 counterexample: `c2Sql` contains both the region join-equality token
and `group by region`, yet the classifier returns the generic
region-aggregation shape, because the `risk_join_aggregated` table-name
branch is tested first. -/
theorem classify_region_join_counterexample :
    strContains (lowerStr c2Sql) "b.region = i.region" = true ∧
    strContains (lowerStr c2Sql) "group by region" = true ∧
    classify c2Sql = QueryShape.regionAgg ∧
    QueryShape.regionAgg ≠ QueryShape.regionJoin := by decide

/-- C2 amended: a lower-cased query text containing both the region
join-equality token and `group by region` classifies as the
region-comparison join shape, provided it contains none of the tokens
tested earlier in the chain (`risk_join_aggregated`,
`approved_questions_cache`, `fraud_cross_signals`,
`privacy_compliance_log`). -/
theorem classify_region_join_precedence (sql : String)
    (h1 : strContains (lowerStr sql) "b.region = i.region" = true)
    (h2 : strContains (lowerStr sql) "group by region" = true)
    (h3 : strContains (lowerStr sql) "risk_join_aggregated" = false)
    (h4 : strContains (lowerStr sql) "approved_questions_cache" = false)
    (h5 : strContains (lowerStr sql) "fraud_cross_signals" = false)
    (h6 : strContains (lowerStr sql) "privacy_compliance_log" = false) :
    classify sql = QueryShape.regionJoin := by
  simp [classify, h1, h2, h3, h4, h5, h6]

/-- C2 witness: the amended precedence rule applied to a concrete
region-comparison join query. -/
theorem classify_region_join_precedence_witness :
    classify c2JoinSql = QueryShape.regionJoin :=
  classify_region_join_precedence c2JoinSql (by decide) (by decide) (by decide)
    (by decide) (by decide) (by decide)

/-- C3: the synthesis exception handler maps every error to the empty Row
Set; an unrecognized query shape yields the empty Row Set from the
synthesizer; and `run_query` returns the empty Row Set (never a null, never
an exception) both on an offline facade and on a connected facade whose
live query fails. -/
theorem run_query_total_empty_on_failure (now : ℚ) (g : RNG) (sql e : String)
    (d1 d2 : SFConn) (b : Backend)
    (hshape : classify sql = QueryShape.unknown)
    (hoff : d1.isOffline = true)
    (hconn : d2.connection = some b) (hfail : b sql = none) :
    synthExceptHandler (Except.error e) = [] ∧
    getSampleDataForQuery now g sql = [] ∧
    runQuery d1 now g sql = [] ∧
    runQuery d2 now g sql = [] := by
  have hs : getSampleDataForQuery now g sql = [] := by
    simp [getSampleDataForQuery, getSampleDataForQueryE, dispatchSample, synthExceptHandler,
      hshape]
  refine ⟨rfl, hs, ?_, ?_⟩
  · simp [runQuery, SFConn.query, hoff, hs]
  · cases hoffb : d2.isOffline <;>
      simp [runQuery, SFConn.query, hconn, hfail, hoffb, hs]

/-- C3 witness: the theorem applied to the unmatched query `emptySql`, the
offline facade and a connected facade with an always-failing backend. -/
theorem run_query_total_empty_on_failure_witness :
    synthExceptHandler (Except.error "boom") = [] ∧
    getSampleDataForQuery 0 rngZero emptySql = [] ∧
    runQuery offlineConn 0 rngZero emptySql = [] ∧
    runQuery liveFailConn 0 rngZero emptySql = [] :=
  run_query_total_empty_on_failure 0 rngZero emptySql "boom" offlineConn liveFailConn
    failBackend (by decide) rfl rfl rfl

/-- C4: the facade's offline flag is decided once at construction (handle
acquired → connected, failure → offline); no `query` call changes the
facade state; and a live-query failure on a connected facade falls back to
the synthesizer for that call while `is_offline` stays false. -/
theorem facade_offline_state_stable (b0 b : Backend) (c cAny : SFConn)
    (now : ℚ) (g : RNG) (sql : String)
    (hconn : c.connection = some b) (hoff : c.isOffline = false)
    (hfail : b sql = none) :
    (initConnection (some b0)).isOffline = false ∧
    (initConnection none).isOffline = true ∧
    (SFConn.query cAny now g sql).2 = cAny ∧
    (SFConn.query c now g sql).1 = getSampleDataForQuery now g sql ∧
    ((SFConn.query c now g sql).2).isOffline = false := by
  refine ⟨rfl, rfl, ?_, ?_, ?_⟩
  · unfold SFConn.query
    split
    · cases hc : cAny.connection with
      | none => simp [hc]
      | some b2 => cases hb : b2 sql <;> simp [hc, hb]
    · rfl
  · simp [SFConn.query, hconn, hfail, hoff]
  · simp [SFConn.query, hconn, hfail, hoff]

/-- C4 witness: the theorem applied to the concrete facades and the
always-failing backend. -/
theorem facade_offline_state_stable_witness :
    (initConnection (some failBackend)).isOffline = false ∧
    (initConnection none).isOffline = true ∧
    (SFConn.query offlineConn 0 rngZero emptySql).2 = offlineConn ∧
    (SFConn.query liveFailConn 0 rngZero emptySql).1
        = getSampleDataForQuery 0 rngZero emptySql ∧
    ((SFConn.query liveFailConn 0 rngZero emptySql).2).isOffline = false :=
  facade_offline_state_stable failBackend failBackend liveFailConn offlineConn 0 rngZero
    emptySql rfl rfl rfl

/-- C5 counterexample: at raw scores `74.997`/`74.997` (both inside the
generator's `[15, 85)` range) the stored `RISK_CATEGORY` differs from the
thresholds applied to the stored (rounded) composite score, and the stored
composite differs from `0.6 × bank + 0.4 × insurance` of the raw draws. -/
theorem composite_category_rounding_counterexample :
    c5Row.riskCategory ≠ riskCat c5Row.compositeRiskScore ∧
    c5Row.compositeRiskScore
        ≠ (74997/1000 : ℚ) * (3/5) + (74997/1000 : ℚ) * (2/5) := by
  refine ⟨?_, ?_⟩ <;> exact of_decide_eq_true (by with_unfolding_all rfl)

/-- C5 amended: in every generated row the category is the threshold table
applied to the unrounded composite `0.6 × bank + 0.4 × insurance` of the
raw draws, and the stored composite (like the stored source scores) is that
value rounded to two decimals. -/
theorem riskRow_score_category_derivation (analysisId age region occ : String)
    (rc : ℕ) (bank ins fraud : ℚ) :
    (mkRiskRow analysisId age region occ rc bank ins fraud).riskCategory
        = riskCat (bank * (3/5) + ins * (2/5)) ∧
    (mkRiskRow analysisId age region occ rc bank ins fraud).compositeRiskScore
        = round2 (bank * (3/5) + ins * (2/5)) ∧
    (mkRiskRow analysisId age region occ rc bank ins fraud).avgBankRiskScore
        = round2 bank ∧
    (mkRiskRow analysisId age region occ rc bank ins fraud).avgInsuranceRiskScore
        = round2 ins := ⟨rfl, rfl, rfl, rfl⟩

/-- C6 counterexample: the access audit log and daily timeline generators
perform no seeding, so two ambient RNG states produce different Row Sets on
fresh caches. -/
theorem unseeded_generators_depend_on_rng_state :
    (genAccessAuditRows 0 rngZero).1 ≠ (genAccessAuditRows 0 rngOne).1 ∧
    (genTimelineRows 0 rngZero).1 ≠ (genTimelineRows 0 rngOne).1 := by
  refine ⟨?_, ?_⟩ <;> exact of_decide_eq_true (by with_unfolding_all rfl)

/-- C6 amended: the five generators that do call `np.random.seed` (risk 42,
bank 42, insurance 43, correlation 44, composite-risk 45) are independent
of the ambient RNG state, hence element-wise identical across runs on fresh
caches. -/
theorem seeded_generators_rng_state_independent (g g' : RNG) :
    genRiskRows g = genRiskRows g' ∧ genBankRows g = genBankRows g' ∧
    genInsuranceRows g = genInsuranceRows g' ∧
    genCorrelationRows g = genCorrelationRows g' ∧
    genCompositeRiskRows g = genCompositeRiskRows g' := ⟨rfl, rfl, rfl, rfl, rfl⟩

/-- C7: on a fresh cache the risk-data generator stores the original at
address 0 and returns a copy at address 1; mutating the returned copy and
calling again returns the unchanged generated value from a third, fresh
address — both the generating call and the cache-hit call hand out
non-aliasing copies. -/
theorem generator_copy_isolation (gen w : List RiskRow) :
    (let call1 := cachedGeneratorCall gen [] (none, [])
     let mutated := heapWrite call1.2.2 call1.1 w
     let call2 := cachedGeneratorCall gen [] (call1.2.1, mutated)
     heapRead call1.2.2 call1.1 [] = gen ∧
     call1.2.1 = some 0 ∧ call1.1 = 1 ∧
     heapRead call2.2.2 call2.1 [] = gen ∧ call2.1 = 2) ∧
    getSampleRiskDataCall (none, []) = cachedGeneratorCall (genRiskRows rngZero) [] (none, []) :=
  ⟨⟨rfl, rfl, rfl, rfl, rfl⟩, rfl⟩

/-- C8 counterexample: the cross product has 144 combinations, but on the
uniform grid of 1000 draw values 601 (over 60%, not approximately 40%) are
dropped, since `np.random.random() > 0.6` keeps a combination with
probability 0.4. -/
theorem combination_drop_rate_counterexample :
    riskCombinations.length = 144 ∧ dropGridCount = 601 ∧
    ¬((dropGridCount : ℚ) / 1000 < 1/2) := by
  refine ⟨by decide, ?_, ?_⟩ <;> exact of_decide_eq_true (by with_unfolding_all rfl)

/-- C8 amended: the base dataset is the 4 × 6 × 6 = 144-element cross
product in which a combination is dropped exactly when its uniform draw is
at most 0.6 — a 60% drop (40% survival) rate, as the grid count 601/1000
witnesses. -/
theorem combination_survival_rule (u : ℚ) :
    riskCombinations.length = 144 ∧ (keepCombination u = false ↔ u ≤ 3/5) ∧
    dropGridCount = 601 := by
  refine ⟨by decide, ?_, of_decide_eq_true (by with_unfolding_all rfl)⟩
  simp [keepCombination, not_lt]

/-- C9: on a base dataset of three Northeast rows with composite scores 10,
60 and 80 (whose generated categories are LOW, HIGH and CRITICAL by the
threshold table), the risk-category-distribution shape returns exactly
three rows, one per category, each `CUSTOMER_COUNT` equal to the matching
base row's `RECORD_COUNT`. -/
theorem northeast_risk_category_distribution (n1 n2 n3 : ℕ) :
    (riskCat 10 = "LOW" ∧ riskCat 60 = "HIGH" ∧ riskCat 80 = "CRITICAL") ∧
    aggRiskCatDist
      [⟨"A0001", "25-34", "Northeast", "Technology", n1, 10, 10, 10, "LOW", 1/10⟩,
       ⟨"A0002", "35-44", "Northeast", "Finance", n2, 60, 60, 60, "HIGH", 1/10⟩,
       ⟨"A0003", "45-54", "Northeast", "Retail", n3, 80, 80, 80, "CRITICAL", 1/10⟩] =
    [{ riskCategory := "CRITICAL", segmentCount := 1, customerCount := n3, avgRiskScore := 80 },
     { riskCategory := "HIGH", segmentCount := 1, customerCount := n2, avgRiskScore := 60 },
     { riskCategory := "LOW", segmentCount := 1, customerCount := n1, avgRiskScore := 10 }] := by
  constructor
  · refine ⟨?_, ?_, ?_⟩ <;> exact of_decide_eq_true (by with_unfolding_all rfl)
  have h10 : round2 (ratMean [(10:ℚ)]) = 10 := of_decide_eq_true (by with_unfolding_all rfl)
  have h60 : round2 (ratMean [(60:ℚ)]) = 60 := of_decide_eq_true (by with_unfolding_all rfl)
  have h80 : round2 (ratMean [(80:ℚ)]) = 80 := of_decide_eq_true (by with_unfolding_all rfl)
  have hk : pandasKeys ["LOW", "HIGH", "CRITICAL"] = ["CRITICAL", "HIGH", "LOW"] := by decide
  simp only [aggRiskCatDist, List.map_cons, List.map_nil, hk, List.filter_cons,
    List.filter_nil]
  simp +decide only [ite_true, ite_false, List.map_cons, List.map_nil, sumRecordCount,
    List.sum_cons, List.sum_nil, List.length_cons, List.length_nil, h10, h60, h80,
    Nat.add_zero, Nat.zero_add]

/-- C10: for any ambient RNG states, the bank and insurance generators both
produce exactly 100 rows, whose `CUSTOMER_ID` columns are the identical
sequence `CUST_00001` … `CUST_00100` in order. -/
theorem org_customer_ids_aligned (g g' : RNG) :
    (genBankRows g).length = 100 ∧ (genInsuranceRows g').length = 100 ∧
    (genBankRows g).map (·.customerId)
        = (List.range 100).map (fun i => custFmt (i + 1)) ∧
    (genBankRows g).map (·.customerId) = (genInsuranceRows g').map (·.customerId) := by
  refine ⟨?_, ?_, ?_, ?_⟩ <;> exact of_decide_eq_true (by with_unfolding_all rfl)

end CrossRisk
